import Mathlib

/-!
Verification of the two scripts in the `wuli` repository
(`number-line-integers/assets/scripts/get-nli-temperature-data.py` and
`number-line-integers/assets/scripts/get-nli-map.py`) against their
natural-language specification.

Both scripts build literal Python dictionaries and hand them to an external
client (`cdsapi.Client().retrieve` in the data script, `ct.catalogue.retrieve`
and `ct.cdsplot.geomap` in the map script).  We embed the Python values that
occur in this code (strings, numbers, flat lists), the two request
dictionaries, and each script as a small effect program whose interpreter
records the trace of external calls it makes, so that call counts, arguments,
target files and error propagation are derived facts rather than assumptions.
-/

/-- Python scalar values as they can appear in these scripts' dictionaries:
strings, numbers (ints and floats, modelled exactly as rationals), booleans
and `None`.  Only strings and numbers actually occur in the source; the wider
universe keeps the well-formedness checks below from being vacuous. -/
inductive PyScalar where
  | str : String → PyScalar
  | num : Rat → PyScalar
  | bool : Bool → PyScalar
  | none : PyScalar
deriving DecidableEq

/-- Python values occurring in the scripts: a scalar or a flat list of
scalars (no nested list occurs anywhere in the source). -/
inductive PyVal where
  | scalar : PyScalar → PyVal
  | list : List PyScalar → PyVal
deriving DecidableEq

/-- A Python dictionary, embedded as an association list that preserves the
source's insertion order.  Keys are arbitrary `PyVal`s, as in Python; the
scripts only ever use string keys, which is one of the claims checked. -/
def Req : Type := List (PyVal × PyVal)

instance : DecidableEq Req := by
  unfold Req
  infer_instance

/-- Look up the value stored under a string key, first match wins as in a
Python dict built from distinct literal keys. -/
def lookupStr (r : Req) (k : String) : Option PyVal :=
  (r.find? (fun p => p.1 == PyVal.scalar (.str k))).map Prod.snd

/-- The keys of a request dictionary, in insertion order. -/
def keysOf (r : Req) : List PyVal :=
  r.map Prod.fst

/-- The request dictionary built by `get-nli-temperature-data.py` and passed
to `c.retrieve` (lines 12-20 of the source). -/
def tempDataRequest : Req :=
  [(.scalar (.str "product_type"), .scalar (.str "monthly_averaged_reanalysis")),
   (.scalar (.str "variable"), .scalar (.str "2m_temperature")),
   (.scalar (.str "grid"), .list [.num 2, .num 2]),
   (.scalar (.str "year"), .scalar (.str "2018")),
   (.scalar (.str "month"), .list [.str "01", .str "02", .str "03", .str "04",
      .str "05", .str "06", .str "07", .str "08", .str "09", .str "10",
      .str "11", .str "12"]),
   (.scalar (.str "time"), .scalar (.str "00:00")),
   (.scalar (.str "format"), .scalar (.str "netcdf"))]

/-- The request dictionary built inside `plot_map` in `get-nli-map.py` and
passed to `ct.catalogue.retrieve` (lines 18-25 of the source). -/
def mapRequest : Req :=
  [(.scalar (.str "product_type"), .scalar (.str "monthly_averaged_reanalysis")),
   (.scalar (.str "variable"), .scalar (.str "2m_temperature")),
   (.scalar (.str "year"), .scalar (.str "2018")),
   (.scalar (.str "month"), .scalar (.str "01")),
   (.scalar (.str "time"), .scalar (.str "00:00"))]

/-- The `pcolormesh_kwargs` dictionary passed to `ct.cdsplot.geomap` in
`get-nli-map.py` (line 30 of the source). -/
def pcolormeshKwargs : Req :=
  [(.scalar (.str "vmin"), .scalar (.num (-60))),
   (.scalar (.str "vmax"), .scalar (.num 50)),
   (.scalar (.str "cmap"), .scalar (.str "RdYlBu_r"))]

/-- One external call as observed by the environment: a retrieval request
(dataset identifier, request dictionary, optional target file) or a call to
the hosted plotting routine (retrieved dataset, title, rendering kwargs).
`δ` is the type of dataset handles returned by retrieval. -/
inductive CdsCall (δ : Type) where
  | retrieve : String → Req → Option String → CdsCall δ
  | geomap : δ → String → Req → CdsCall δ
deriving DecidableEq

/-- Effect programs over the two external operations the scripts use.
`δ` is the dataset-handle type, `φ` the figure type, `α` the result type. -/
inductive CdsProg (δ φ α : Type) where
  | ret : α → CdsProg δ φ α
  | retrieve : String → Req → Option String → (δ → CdsProg δ φ α) → CdsProg δ φ α
  | geomap : δ → String → Req → (φ → CdsProg δ φ α) → CdsProg δ φ α

/-- Run an effect program against external-client behaviours `hr` (retrieval)
and `hg` (plotting), each of which may fail with an error of type `ε`.
Returns the trace of calls issued (a failing call is still recorded) and the
final outcome; an error aborts the program, as an uncaught Python exception
does. -/
def runProg {ε δ φ α : Type} (hr : String → Req → Option String → Except ε δ)
    (hg : δ → String → Req → Except ε φ) :
    CdsProg δ φ α → List (CdsCall δ) × Except ε α
  | .ret a => ([], Except.ok a)
  | .retrieve ds req tgt k =>
    match hr ds req tgt with
    | Except.error e => ([CdsCall.retrieve ds req tgt], Except.error e)
    | Except.ok d =>
      let p := runProg hr hg (k d)
      (CdsCall.retrieve ds req tgt :: p.1, p.2)
  | .geomap d t kw k =>
    match hg d t kw with
    | Except.error e => ([CdsCall.geomap d t kw], Except.error e)
    | Except.ok f =>
      let p := runProg hr hg (k f)
      (CdsCall.geomap d t kw :: p.1, p.2)

/-- The retrieval calls occurring in a trace. -/
def retrieveEvents {δ : Type} : List (CdsCall δ) → List (CdsCall δ) :=
  List.filter (fun c => match c with
    | .retrieve _ _ _ => true
    | .geomap _ _ _ => false)

/-- The module body of `get-nli-temperature-data.py`: construct the client,
issue a single `c.retrieve` call with the literal dataset identifier, the
literal request dictionary and the target file `"temperature-data.nc"`,
discard the returned value. -/
def getNliTemperatureData {δ φ : Type} : CdsProg δ φ Unit :=
  CdsProg.retrieve "reanalysis-era5-single-levels-monthly-means"
    tempDataRequest (some "temperature-data.nc") (fun _ =>
      CdsProg.ret ())

/-- The body of `plot_map` in `get-nli-map.py`: retrieve a dataset with the
literal request dictionary (no target file; the toolbox returns an in-memory
handle), pass it to `ct.cdsplot.geomap` with the title
`'Near-surface air temperature'` and the `pcolormesh_kwargs` dictionary, and
return the resulting figure. -/
def plotMap {δ φ : Type} : CdsProg δ φ φ :=
  CdsProg.retrieve "reanalysis-era5-single-levels-monthly-means"
    mapRequest none (fun data =>
      CdsProg.geomap data "Near-surface air temperature" pcolormeshKwargs (fun fig =>
        CdsProg.ret fig))

/-- The data script as invoked from the command line.  The source reads
neither `sys.argv` nor `os.environ` and opens no configuration file, so the
program it runs does not depend on either argument. -/
def getNliTemperatureDataMain {δ φ : Type} (argv : List String)
    (env : List (String × String)) : CdsProg δ φ Unit :=
  getNliTemperatureData

/-- The map script as invoked by the toolbox.  `plot_map` takes no
parameters and the source reads neither command-line arguments nor
environment variables, so the program it runs does not depend on either
argument. -/
def plotMapMain {δ φ : Type} (argv : List String)
    (env : List (String × String)) : CdsProg δ φ φ :=
  plotMap

/-- The query-parameter names documented for the remote retrieval API, as
listed by the specification: product type, variable, grid resolution, year,
month(s), time and output format. -/
def documentedKeys : List String :=
  ["product_type", "variable", "grid", "year", "month", "time", "format"]

/-- A string consisting of exactly four decimal digits. -/
def yearOk (s : String) : Bool :=
  match s.data with
  | [c1, c2, c3, c4] => c1.isDigit && c2.isDigit && c3.isDigit && c4.isDigit
  | _ => false

/-- A two-digit string whose value lies between 01 and 12. -/
def monthOk (s : String) : Bool :=
  match s.data with
  | [c1, c2] =>
    c1.isDigit && c2.isDigit &&
      (let n := 10 * (c1.toNat - 48) + (c2.toNat - 48)
       1 ≤ n && n ≤ 12)
  | _ => false

/-- A string of the form `HH:MM`: two digits, a colon, two digits. -/
def timeOk (s : String) : Bool :=
  match s.data with
  | [h1, h2, c, m1, m2] => h1.isDigit && h2.isDigit && c == ':' && m1.isDigit && m2.isDigit
  | _ => false

/-- The value stored under `year` must be a four-digit year string. -/
def yearValOk : PyVal → Bool
  | .scalar (.str s) => yearOk s
  | _ => false

/-- The value stored under `month` must be a valid month string or a list of
valid month strings. -/
def monthValOk : PyVal → Bool
  | .scalar (.str s) => monthOk s
  | .list l => l.all (fun v => match v with
      | .str s => monthOk s
      | _ => false)
  | _ => false

/-- The value stored under `time` must be an `HH:MM` string. -/
def timeValOk : PyVal → Bool
  | .scalar (.str s) => timeOk s
  | _ => false

/-- Every grid value must be numeric: a number or a list of numbers. -/
def gridValOk : PyVal → Bool
  | .scalar (.num _) => true
  | .list l => l.all (fun v => match v with
      | .num _ => true
      | _ => false)
  | _ => false

/-- One dictionary entry is well-formed for the external API schema: its key
is a string naming a documented query parameter, and the values under
`year`, `month`, `time` and `grid` have the documented shapes. -/
def entryOk : PyVal × PyVal → Bool
  | (.scalar (.str k), v) =>
    documentedKeys.contains k &&
      (if k = "year" then yearValOk v
       else if k = "month" then monthValOk v
       else if k = "time" then timeValOk v
       else if k = "grid" then gridValOk v
       else true)
  | _ => false

/-- A request dictionary is a well-formed input to the external API schema
when every entry is. -/
def wellFormedRequest (r : Req) : Bool :=
  r.all entryOk

/-- A scalar that is a string or a number. -/
def scalarIsStrOrNum : PyScalar → Bool
  | .str _ => true
  | .num _ => true
  | _ => false

/-- A value that is a string, a number, or a list of strings and numbers. -/
def valueFlatOk : PyVal → Bool
  | .scalar s => scalarIsStrOrNum s
  | .list l => l.all scalarIsStrOrNum

/-- A dictionary entry whose key is a string and whose value is a string, a
number or a list of strings and numbers. -/
def entryFlatOk : PyVal × PyVal → Bool
  | (k, v) =>
    (match k with
     | .scalar (.str _) => true
     | _ => false) && valueFlatOk v

/-- Every key of the dictionary is a string and every value is a string, a
number or a flat list of strings and numbers. -/
def reqEntriesOk (r : Req) : Bool :=
  r.all entryFlatOk

theorem scriptB_run (ε δ φ : Type) (hr : String → Req → Option String → Except ε δ)
    (hg : δ → String → Req → Except ε φ) :
    (runProg hr hg (@getNliTemperatureData δ φ)).1
      = [CdsCall.retrieve "reanalysis-era5-single-levels-monthly-means"
          tempDataRequest (some "temperature-data.nc")] := by
  rcases h : hr "reanalysis-era5-single-levels-monthly-means" tempDataRequest
      (some "temperature-data.nc") with e | d <;>
    simp [getNliTemperatureData, runProg, h]

theorem plotMap_run_events (ε δ φ : Type)
    (hr : String → Req → Option String → Except ε δ)
    (hg : δ → String → Req → Except ε φ) :
    retrieveEvents (runProg hr hg (@plotMap δ φ)).1
      = [CdsCall.retrieve "reanalysis-era5-single-levels-monthly-means"
          mapRequest none] := by
  rcases h1 : hr "reanalysis-era5-single-levels-monthly-means" mapRequest none with e | d
  · simp [plotMap, runProg, retrieveEvents, h1]
  · rcases h2 : hg d "Near-surface air temperature" pcolormeshKwargs with e | f <;>
      simp [plotMap, runProg, retrieveEvents, h1, h2]

/-- C1: For every behaviour of the external client, the data-retrieval
script issues exactly one `retrieve` call, and the target-file argument of
that call is exactly the string `"temperature-data.nc"`: on success the
client writes its result there. -/
theorem retrieve_targets_temperature_data_nc (ε δ φ : Type)
    (hr : String → Req → Option String → Except ε δ)
    (hg : δ → String → Req → Except ε φ) :
    (runProg hr hg (@getNliTemperatureData δ φ)).1
      = [CdsCall.retrieve "reanalysis-era5-single-levels-monthly-means"
          tempDataRequest (some "temperature-data.nc")] :=
  scriptB_run ε δ φ hr hg

/-- C2: both request dictionaries are well-formed inputs to the external API
schema: every key is a documented query-parameter name, the `year` value is a
four-digit year string, every `month` value is a two-digit string between
`01` and `12`, the `time` value has the form `HH:MM`, and every grid value
is numeric. -/
theorem request_dicts_well_formed :
    wellFormedRequest tempDataRequest = true ∧ wellFormedRequest mapRequest = true :=
  ⟨rfl, rfl⟩

/-- C3 counterexample: the map script's single retrieval invocation (run
here against a trivially succeeding client) supplies the dictionary
`mapRequest`, which contains neither a `grid` nor a `format` key, so not
every invocation supplies the grid resolution and the output format. -/
theorem map_request_lacks_grid_and_format :
    retrieveEvents ((runProg (fun _ _ _ => (Except.ok () : Except Unit Unit))
        (fun _ _ _ => (Except.ok () : Except Unit Unit)) (@plotMap Unit Unit)).1)
      = [CdsCall.retrieve "reanalysis-era5-single-levels-monthly-means" mapRequest none]
    ∧ lookupStr mapRequest "grid" = none
    ∧ lookupStr mapRequest "format" = none := by
  refine ⟨rfl, rfl, rfl⟩

/-- C3 amended: every retrieval invocation of either script supplies the
dataset identifier, product type, variable, year, month(s) and time; the
data-retrieval script additionally supplies the grid resolution and the
output format, both of which the map script omits. -/
theorem request_keys_per_script (ε δ φ : Type)
    (hr : String → Req → Option String → Except ε δ)
    (hg : δ → String → Req → Except ε φ) :
    (runProg hr hg (@getNliTemperatureData δ φ)).1
      = [CdsCall.retrieve "reanalysis-era5-single-levels-monthly-means"
          tempDataRequest (some "temperature-data.nc")]
    ∧ retrieveEvents (runProg hr hg (@plotMap δ φ)).1
      = [CdsCall.retrieve "reanalysis-era5-single-levels-monthly-means" mapRequest none]
    ∧ keysOf tempDataRequest
      = [.scalar (.str "product_type"), .scalar (.str "variable"),
         .scalar (.str "grid"), .scalar (.str "year"), .scalar (.str "month"),
         .scalar (.str "time"), .scalar (.str "format")]
    ∧ keysOf mapRequest
      = [.scalar (.str "product_type"), .scalar (.str "variable"),
         .scalar (.str "year"), .scalar (.str "month"), .scalar (.str "time")] :=
  ⟨scriptB_run ε δ φ hr hg, plotMap_run_events ε δ φ hr hg, rfl, rfl⟩

/-- C4: when the retrieval and plotting calls succeed, `plot_map` retrieves a
dataset with its literal request dictionary, invokes the plotting routine on
that dataset with the title `'Near-surface air temperature'` and the kwargs
`vmin = -60`, `vmax = 50`, `cmap = 'RdYlBu_r'`, and returns the figure that
plotting call produced. -/
theorem plot_map_structure (ε δ φ : Type)
    (hr : String → Req → Option String → Except ε δ)
    (hg : δ → String → Req → Except ε φ) (d : δ) (f : φ)
    (h1 : hr "reanalysis-era5-single-levels-monthly-means" mapRequest none = Except.ok d)
    (h2 : hg d "Near-surface air temperature" pcolormeshKwargs = Except.ok f) :
    runProg hr hg (@plotMap δ φ)
      = ([CdsCall.retrieve "reanalysis-era5-single-levels-monthly-means" mapRequest none,
          CdsCall.geomap d "Near-surface air temperature" pcolormeshKwargs],
         Except.ok f) := by
  simp [plotMap, runProg, h1, h2]

/-- C4 witness: `plot_map_structure` instantiated with a concrete succeeding
client. -/
theorem plot_map_structure_witness :
    runProg (fun _ _ _ => (Except.ok () : Except Unit Unit))
        (fun _ _ _ => (Except.ok () : Except Unit Unit)) (@plotMap Unit Unit)
      = ([CdsCall.retrieve "reanalysis-era5-single-levels-monthly-means" mapRequest none,
          CdsCall.geomap () "Near-surface air temperature" pcolormeshKwargs],
         Except.ok ()) :=
  plot_map_structure Unit Unit Unit (fun _ _ _ => Except.ok ())
    (fun _ _ _ => Except.ok ()) () () rfl rfl

/-- C5: when the external client's retrieval call fails with an error `e`,
each script's run ends with exactly that error, unchanged, after exactly one
retrieval call: no retry, no substitute result, no translated error. -/
theorem errors_propagate_unchanged (ε δ φ : Type)
    (hr : String → Req → Option String → Except ε δ)
    (hg : δ → String → Req → Except ε φ) (e : ε)
    (h1 : hr "reanalysis-era5-single-levels-monthly-means" tempDataRequest
        (some "temperature-data.nc") = Except.error e)
    (h2 : hr "reanalysis-era5-single-levels-monthly-means" mapRequest none
        = Except.error e) :
    runProg hr hg (@getNliTemperatureData δ φ)
      = ([CdsCall.retrieve "reanalysis-era5-single-levels-monthly-means"
            tempDataRequest (some "temperature-data.nc")], Except.error e)
    ∧ runProg hr hg (@plotMap δ φ)
      = ([CdsCall.retrieve "reanalysis-era5-single-levels-monthly-means"
            mapRequest none], Except.error e) := by
  constructor <;> simp [getNliTemperatureData, plotMap, runProg, h1, h2]

/-- C5 witness: `errors_propagate_unchanged` instantiated with a client that
fails every call with the error string `"network"`. -/
theorem errors_propagate_unchanged_witness :
    runProg (fun _ _ _ => (Except.error "network" : Except String Unit))
        (fun _ _ _ => (Except.error "network" : Except String Unit))
        (@getNliTemperatureData Unit Unit)
      = ([CdsCall.retrieve "reanalysis-era5-single-levels-monthly-means"
            tempDataRequest (some "temperature-data.nc")], Except.error "network")
    ∧ runProg (fun _ _ _ => (Except.error "network" : Except String Unit))
        (fun _ _ _ => (Except.error "network" : Except String Unit))
        (@plotMap Unit Unit)
      = ([CdsCall.retrieve "reanalysis-era5-single-levels-monthly-means"
            mapRequest none], Except.error "network") :=
  errors_propagate_unchanged String Unit Unit
    (fun _ _ _ => Except.error "network") (fun _ _ _ => Except.error "network")
    "network" rfl rfl

/-- C6: in both request dictionaries, every key is a string and every value
is a string, a number, or a flat list of strings and numbers; these are
exactly the dictionaries passed to the external client (see
`scriptB_run` and `plotMap_run_events`). -/
theorem request_entries_string_keyed_flat_values :
    reqEntriesOk tempDataRequest = true ∧ reqEntriesOk mapRequest = true :=
  ⟨rfl, rfl⟩

/-- C7: the run of either script is independent of the command-line
arguments and the environment it was started with: any two invocations
differing only in `argv` or `env` issue identical calls to the external
client and produce identical outcomes. -/
theorem independent_of_argv_and_env (ε δ φ : Type)
    (hr : String → Req → Option String → Except ε δ)
    (hg : δ → String → Req → Except ε φ)
    (argv argv' : List String) (env env' : List (String × String)) :
    runProg hr hg (@getNliTemperatureDataMain δ φ argv env)
      = runProg hr hg (@getNliTemperatureDataMain δ φ argv' env')
    ∧ runProg hr hg (@plotMapMain δ φ argv env)
      = runProg hr hg (@plotMapMain δ φ argv' env') :=
  ⟨rfl, rfl⟩

/-- C8: for every behaviour of the external client, each script issues
exactly one retrieval call — never zero, never more than one — and the
request dictionary carried by that call is the fully constructed literal
dictionary of the script. -/
theorem exactly_one_retrieve_call (ε δ φ : Type)
    (hr : String → Req → Option String → Except ε δ)
    (hg : δ → String → Req → Except ε φ) :
    retrieveEvents (runProg hr hg (@getNliTemperatureData δ φ)).1
      = [CdsCall.retrieve "reanalysis-era5-single-levels-monthly-means"
          tempDataRequest (some "temperature-data.nc")]
    ∧ retrieveEvents (runProg hr hg (@plotMap δ φ)).1
      = [CdsCall.retrieve "reanalysis-era5-single-levels-monthly-means"
          mapRequest none] := by
  refine ⟨?_, plotMap_run_events ε δ φ hr hg⟩
  rw [scriptB_run ε δ φ hr hg]
  simp [retrieveEvents]

/-- C9: the data-retrieval script's dictionary requests all twelve months of
2018 in one call: its `month` value is the list `['01', ..., '12']` in
ascending order, with `year` `'2018'`, `variable` `'2m_temperature'`,
`grid` `[2.0, 2.0]` and `format` `'netcdf'`. -/
theorem temperature_request_field_values :
    lookupStr tempDataRequest "month"
      = some (.list [.str "01", .str "02", .str "03", .str "04", .str "05",
          .str "06", .str "07", .str "08", .str "09", .str "10", .str "11",
          .str "12"])
    ∧ lookupStr tempDataRequest "year" = some (.scalar (.str "2018"))
    ∧ lookupStr tempDataRequest "variable" = some (.scalar (.str "2m_temperature"))
    ∧ lookupStr tempDataRequest "grid" = some (.list [.num 2, .num 2])
    ∧ lookupStr tempDataRequest "format" = some (.scalar (.str "netcdf")) :=
  ⟨rfl, rfl, rfl, rfl, rfl⟩

/-- C10: `plot_map` takes no parameters and is deterministic with respect to
the external client's behaviour: two runs against equal client behaviours
are identical, the single retrieval call always carries the same hard-coded
dictionary, and that dictionary is exactly the literal one of the source
(product type `monthly_averaged_reanalysis`, variable `2m_temperature`,
year `2018`, month `01`, time `00:00`). -/
theorem plot_map_deterministic (ε δ φ : Type)
    (hr hr' : String → Req → Option String → Except ε δ)
    (hg hg' : δ → String → Req → Except ε φ)
    (h1 : hr = hr') (h2 : hg = hg') :
    runProg hr hg (@plotMap δ φ) = runProg hr' hg' (@plotMap δ φ)
    ∧ retrieveEvents (runProg hr hg (@plotMap δ φ)).1
      = [CdsCall.retrieve "reanalysis-era5-single-levels-monthly-means"
          mapRequest none]
    ∧ mapRequest
      = [(.scalar (.str "product_type"), .scalar (.str "monthly_averaged_reanalysis")),
         (.scalar (.str "variable"), .scalar (.str "2m_temperature")),
         (.scalar (.str "year"), .scalar (.str "2018")),
         (.scalar (.str "month"), .scalar (.str "01")),
         (.scalar (.str "time"), .scalar (.str "00:00"))] := by
  subst h1
  subst h2
  exact ⟨rfl, plotMap_run_events ε δ φ hr hg, rfl⟩

/-- C10 witness: `plot_map_deterministic` instantiated with a concrete
client behaviour. -/
theorem plot_map_deterministic_witness :
    runProg (fun _ _ _ => (Except.ok () : Except Unit Unit))
        (fun _ _ _ => (Except.ok () : Except Unit Unit)) (@plotMap Unit Unit)
      = runProg (fun _ _ _ => (Except.ok () : Except Unit Unit))
          (fun _ _ _ => (Except.ok () : Except Unit Unit)) (@plotMap Unit Unit)
    ∧ retrieveEvents ((runProg (fun _ _ _ => (Except.ok () : Except Unit Unit))
          (fun _ _ _ => (Except.ok () : Except Unit Unit)) (@plotMap Unit Unit)).1)
      = [CdsCall.retrieve "reanalysis-era5-single-levels-monthly-means"
          mapRequest none]
    ∧ mapRequest
      = [(.scalar (.str "product_type"), .scalar (.str "monthly_averaged_reanalysis")),
         (.scalar (.str "variable"), .scalar (.str "2m_temperature")),
         (.scalar (.str "year"), .scalar (.str "2018")),
         (.scalar (.str "month"), .scalar (.str "01")),
         (.scalar (.str "time"), .scalar (.str "00:00"))] :=
  plot_map_deterministic Unit Unit Unit
    (fun _ _ _ => Except.ok ()) (fun _ _ _ => Except.ok ())
    (fun _ _ _ => Except.ok ()) (fun _ _ _ => Except.ok ()) rfl rfl
